import Mathlib

/-!
Verification of the enrichment pipeline in `extract_keywords.py`.

The script enriches a tabular dataset of research-funding projects with
keyword metadata.  Its components are embedded shallowly below:

* `convert_to_float`  — the value normalizer (`convert_to_float`, lines 10-17);
* `get_cluster`       — the cluster classifier (`get_cluster`, lines 20-28);
* `get_euroscivoc_keywords` — the local keyword aggregator (lines 31-32);
* `runRetry` / `get_keywords_from_content` / `get_cordis_keywords`
                      — the remote keyword fetcher (lines 35-61);
* `pipeline`          — the `__main__` orchestration (lines 99-115).

Python strings are modelled as Lean `String`s; the Python string
operations used by the script (`split`, `join`, `strip`, `startswith`,
`replace`) are given executable models `pySplit`, `pyJoin`, `pyStrip`,
`pyStartswith`, `pyReplace` operating on the underlying character lists,
so that all reasoning stays within ordinary list lemmas.  Fallible Python
code (list indexing that can raise `IndexError`, attribute access that can
raise `KeyError`) is modelled with `Option`, `none` standing for a raised
exception.
-/

/-- Model of Python `str.split(sep)` for a single-character separator,
acting on character lists: `"".split(sep) == [""]`, and separators at the
ends or adjacent to each other produce empty fields, exactly as in
Python. -/
def pySplit (sep : Char) : List Char → List (List Char)
  | [] => [[]]
  | c :: rest =>
    if c = sep then [] :: pySplit sep rest
    else
      match pySplit sep rest with
      | [] => [[c]]
      | g :: gs => (c :: g) :: gs

/-- Model of Python `str.split(sep)` on `String`s. -/
def pySplitStr (s : String) (sep : Char) : List String :=
  (pySplit sep s.data).map String.mk

/-- Model of Python `sep.join(parts)`. -/
def pyJoin (sep : String) : List String → String
  | [] => ""
  | [p] => p
  | p :: q :: ps => p ++ sep ++ pyJoin sep (q :: ps)

/-- Model of Python `str.strip()`: remove whitespace from both ends. -/
def pyStrip (s : String) : String :=
  String.mk (((s.data.dropWhile Char.isWhitespace).reverse.dropWhile
    Char.isWhitespace).reverse)

/-- Model of Python `s.startswith(p)`. -/
def pyStartswith (s p : String) : Bool :=
  p.data.isPrefixOf s.data

/-- Model of Python `str.replace(a, b)` for single-character arguments. -/
def pyReplace (s : String) (a b : Char) : String :=
  String.mk (s.data.map (fun c => if c = a then b else c))

/-- Numeric value of a digit string, most significant digit first. -/
def digitsToNat (l : List Char) : Nat :=
  l.foldl (fun n c => 10 * n + (c.toNat - 48)) 0

/-- Consume an optional leading sign; return whether it was `-` and the
remaining characters. -/
def readSign : List Char → Bool × List Char
  | '-' :: r => (true, r)
  | '+' :: r => (false, r)
  | l => (false, l)

/-- Split a character list at the first `e`/`E`, returning the part before
it and, when present, the part after it. -/
def splitAtExp : List Char → List Char × Option (List Char)
  | [] => ([], none)
  | c :: r =>
    if c = 'e' ∨ c = 'E' then ([], some r)
    else ((c :: (splitAtExp r).1), (splitAtExp r).2)

/-- Parse the mantissa of a float literal: digits with at most one point
and at least one digit overall.  The value is returned exactly as a
rational. -/
def parseMantissa (l : List Char) : Option ℚ :=
  match l.dropWhile Char.isDigit with
  | [] => if l.isEmpty then none else some (digitsToNat l : ℚ)
  | '.' :: fp =>
    if fp.all Char.isDigit && (!(l.takeWhile Char.isDigit).isEmpty || !fp.isEmpty) then
      some ((digitsToNat (l.takeWhile Char.isDigit) : ℚ) +
        (digitsToNat fp : ℚ) / (10 : ℚ) ^ fp.length)
    else none
  | _ => none

/-- Parse the optional exponent part of a float literal. -/
def parseExp : Option (List Char) → Option ℤ
  | none => some 0
  | some e =>
    match readSign e with
    | (neg, d) =>
      if !d.isEmpty && d.all Char.isDigit then
        some (if neg then -(digitsToNat d : ℤ) else (digitsToNat d : ℤ))
      else none

/-- Model of CPython `float(s)` on decimal literals: optional surrounding
whitespace, optional sign, digits with at most one decimal point, optional
exponent.  The textual forms `inf`/`nan` and digit-group underscores lie
outside the modelled grammar; the value is kept exact as a rational
instead of being rounded to binary floating point, which is faithful for
every comparison made in this development. -/
def pyParseFloat (s : String) : Option ℚ :=
  match readSign (pyStrip s).data with
  | (neg, l1) =>
    match parseMantissa (splitAtExp l1).1, parseExp (splitAtExp l1).2 with
    | some m, some e =>
      some (if neg then -(m * (10 : ℚ) ^ e) else m * (10 : ℚ) ^ e)
    | _, _ => none

/-- Tagged union for the loosely typed scalars handed to
`convert_to_float`: a missing value (`NaN`/`None`, detected by
`pd.isna`), a string, or an already numeric value. -/
inductive Raw where
  | missing : Raw
  | str : String → Raw
  | num : ℚ → Raw
deriving DecidableEq

/-- Shallow embedding of `convert_to_float` (lines 10-17):

```python
def convert_to_float(val):
    if pd.isna(val):
        return None
    try:
        return float(str(val).replace(",", "."))
    except ValueError:
        return val
```

For an already numeric `val`, `str(val)` contains no comma and re-parses
to the same value, so that branch returns the number itself.  The result
is `none` for Python `None`, `Sum.inl` for a float, `Sum.inr` for the
original string passed through. -/
def convert_to_float : Raw → Option (ℚ ⊕ String)
  | .missing => none
  | .num q => some (Sum.inl q)
  | .str s =>
    match pyParseFloat (pyReplace s ',' '.') with
    | some q => some (Sum.inl q)
    | none => some (Sum.inr s)

/-- Shallow embedding of `get_cluster` (lines 20-28):

```python
def get_cluster(topic):
    if topic.startswith("HORIZON"):
        return "HORIZON-" + topic.split("-")[1]
    elif topic.startswith("ERC"):
        return "ERC-" + topic.split("-")[2]
    elif topic.startswith("EURATOM"):
        return "EURATOM-" + "-".join(topic.split("-")[2:-1])
    return topic
```

Python list indexing `l[i]` raises `IndexError` when out of range, which
is modelled by `List.get?` returning `none`; the slice `l[2:-1]` is total
and equals `(l.drop 2).dropLast`.  A `none` result models the exception
propagating out of the function. -/
def get_cluster (topic : String) : Option String :=
  if pyStartswith topic "HORIZON" then
    ((pySplitStr topic '-').get? 1).map (fun x => "HORIZON-" ++ x)
  else if pyStartswith topic "ERC" then
    ((pySplitStr topic '-').get? 2).map (fun x => "ERC-" ++ x)
  else if pyStartswith topic "EURATOM" then
    some ("EURATOM-" ++ pyJoin "-" (((pySplitStr topic '-').drop 2).dropLast))
  else
    some topic

/-- Shallow embedding of `get_euroscivoc_keywords` (lines 31-32).  The
dataframe is modelled as the list of its rows, each row a pair of the
`projectID` and `euroSciVocTitle` columns; `.loc` row selection keeps the
original row order, and `.tolist()` yields the titles in that order. -/
def get_euroscivoc_keywords (project_id : String)
    (euroscivoc_df : List (String × String)) : List String :=
  (euroscivoc_df.filter (fun e => e.1 == project_id)).map (fun e => e.2)

/-- Model of the parsed HTML page seen by `get_cordis_keywords`:
`keywordsMeta` is the result of
`soup.find("meta", attrs={"name": "keywords"})` together with that tag's
`content` attribute. `none` means no such `<meta>` element exists;
`some none` means the element exists but has no `content` attribute
(so `keywords_soup["content"]` raises `KeyError`); `some (some c)` means
the element exists with content string `c`. -/
structure Page where
  keywordsMeta : Option (Option String)
deriving DecidableEq

/-- Outcome of one `requests.get(url, timeout=10)` call: either an
exception (timeout, connection error, …) or a response carrying an HTTP
status code and a parsed page body. -/
inductive Attempt where
  | exn : Attempt
  | response : Nat → Page → Attempt
deriving DecidableEq

/-- Model of the `try`/`except` around each attempt (lines 40-44): an
exception is replaced by a fresh `requests.Response()` with
`status_code = 408` and an empty body. -/
def toResponse : Attempt → Nat × Page
  | .exn => (408, ⟨none⟩)
  | .response s p => (s, p)

/-- Model of `requests.Response.ok`: `True` exactly when
`status_code < 400` (the `raise_for_status` threshold), so 1xx, 2xx and
3xx responses all count as "ok". -/
def res_ok (status : Nat) : Bool :=
  status < 400

/-- Shallow embedding of the retry loop (lines 39-47):

```python
for _ in range(3):
    try:
        res = requests.get(url, timeout=10)
    except Exception:
        res = requests.Response()
        res.status_code = 408
    if res.ok:
        break
```

The three bounded iterations are unrolled; `a0`, `a1`, `a2` are the
outcomes the environment would produce for the first, second and third
attempt.  The result is the final value of `res` together with the number
of attempts actually performed. -/
def runRetry (a0 a1 a2 : Attempt) : (Nat × Page) × Nat :=
  if res_ok (toResponse a0).1 then (toResponse a0, 1)
  else if res_ok (toResponse a1).1 then (toResponse a1, 2)
  else (toResponse a2, 3)

/-- Shallow embedding of the keyword parsing on line 59:

```python
keywords = set([kw.strip() for kw in keywords_soup["content"].split(",")
                if (kw != "" and not kw.startswith("HORIZON"))])
return list(keywords)
```

Note the emptiness and `HORIZON` tests are applied to the raw,
un-stripped entry `kw`, while the retained element is `kw.strip()`.
The Python `set` has unspecified iteration order; `List.dedup` fixes one
canonical representative list with the same underlying set, and every
property proved about the result is order-insensitive. -/
def get_keywords_from_content (content : String) : List String :=
  (((pySplitStr content ',').filter
      (fun kw => kw != "" && !(pyStartswith kw "HORIZON"))).map pyStrip).dedup

/-- Result type of `get_cordis_keywords`: either a list of keywords or
one of the string sentinels `"ERROR"` / `"NOT FOUND"`. -/
inductive FetchResult where
  | keywords : List String → FetchResult
  | sentinel : String → FetchResult
deriving DecidableEq

/-- Shallow embedding of `get_cordis_keywords` (lines 35-61), composed
from `runRetry` and `get_keywords_from_content`.  A `none` result models
an exception escaping the function — the only such exception is the
`KeyError` raised by `keywords_soup["content"]` when the `<meta>` element
has no `content` attribute. -/
def get_cordis_keywords (a0 a1 a2 : Attempt) : Option FetchResult :=
  if !(res_ok (runRetry a0 a1 a2).1.1) then some (.sentinel "ERROR")
  else
    match (runRetry a0 a1 a2).1.2.keywordsMeta with
    | none => some (.sentinel "NOT FOUND")
    | some none => none
    | some (some content) => some (.keywords (get_keywords_from_content content))

/-- Input row of the project table, restricted to the columns the
pipeline reads (`id`, `ecMaxContribution`, `topics`); the dropped columns
(line 92-97) play no role. -/
structure InRow where
  id : String
  ecMaxContribution : Raw
  topics : String
deriving DecidableEq

/-- Output row written to `./out/extracted.csv`: the input columns after
normalization plus the derived `cluster`, `euroscivoc_keywords` and
`cordis_keywords` columns.  `euroscivoc_keywords` is `none` when the left
join found no matching `projectID` (pandas fills `NaN` there). -/
structure OutRow where
  id : String
  ecMaxContribution : Option (ℚ ⊕ String)
  topics : String
  cluster : String
  euroscivoc_keywords : Option (List String)
  cordis_keywords : FetchResult
deriving DecidableEq

/-- Shallow embedding of the `__main__` orchestration (lines 99-115):
convert `ecMaxContribution` with `convert_to_float`, derive the `cluster`
column with `get_cluster`, drop rows whose cluster is not in the filter
(`clusters = none` models the `"all"` pass-through), left-join the
grouped euroSciVoc titles on `id` = `projectID`, and call the remote
fetcher once per surviving row in order.  The `fetch` argument stands for
`get_cordis_keywords` applied to whatever the network returns for each
id; `none` from `get_cluster` or `fetch` models an uncaught exception
aborting the script.  The grouped-and-left-joined keyword column agrees
with `get_euroscivoc_keywords` on matched ids because pandas `groupby`
preserves within-group row order. -/
def pipeline (rows : List InRow) (clusters : Option (List String))
    (entries : List (String × String)) (fetch : String → Option FetchResult) :
    Option (List OutRow) :=
  (rows.mapM (fun r => (get_cluster r.topics).map (fun cl => (r, cl)))).bind
    (fun tagged =>
      (match clusters with
        | none => tagged
        | some cs => tagged.filter (fun rc => cs.contains rc.2)).mapM
        (fun (rc : InRow × String) =>
          (fetch rc.1.id).map (fun fr =>
            { id := rc.1.id
              ecMaxContribution := convert_to_float rc.1.ecMaxContribution
              topics := rc.1.topics
              cluster := rc.2
              euroscivoc_keywords :=
                if entries.any (fun e => e.1 == rc.1.id) then
                  some (get_euroscivoc_keywords rc.1.id entries)
                else none
              cordis_keywords := fr })))

/-! ### Helper lemmas about the string-operation models -/

theorem pySplit_ne_nil (sep : Char) (l : List Char) : pySplit sep l ≠ [] := by
  induction l with
  | nil => simp [pySplit]
  | cons c rest ih =>
    simp only [pySplit]
    split
    · simp
    · cases h : pySplit sep rest with
      | nil => simp
      | cons g gs => simp

theorem pySplit_no_sep (sep : Char) (l : List Char) (h : sep ∉ l) :
    pySplit sep l = [l] := by
  induction l with
  | nil => rfl
  | cons c rest ih =>
    have hc : ¬ c = sep := fun hcs => h (hcs ▸ List.mem_cons_self c rest)
    have hr : sep ∉ rest := fun hm => h (List.mem_cons_of_mem c hm)
    simp only [pySplit, if_neg hc, ih hr]

theorem pySplit_append (sep : Char) (p rest : List Char) (h : sep ∉ p) :
    pySplit sep (p ++ sep :: rest) = p :: pySplit sep rest := by
  induction p with
  | nil => simp [pySplit]
  | cons c p' ih =>
    have hc : ¬ c = sep := fun hcs => h (hcs ▸ List.mem_cons_self c p')
    have hp : sep ∉ p' := fun hm => h (List.mem_cons_of_mem c hm)
    simp only [List.cons_append, pySplit, if_neg hc, List.append_eq, ih hp]

theorem data_pyJoin_cons (p q : String) (ps : List String) :
    (pyJoin "-" (p :: q :: ps)).data = p.data ++ '-' :: (pyJoin "-" (q :: ps)).data := by
  show (p ++ "-" ++ pyJoin "-" (q :: ps)).data = _
  simp [String.data_append]

theorem pySplitStr_pyJoin : ∀ (ps : List String), ps ≠ [] →
    (∀ s ∈ ps, '-' ∉ s.data) → pySplitStr (pyJoin "-" ps) '-' = ps
  | [], h, _ => absurd rfl h
  | [p], _, hf => by
    have : pyJoin "-" [p] = p := rfl
    rw [this, pySplitStr, pySplit_no_sep '-' p.data (hf p (by simp))]
    rfl
  | p :: q :: ps, _, hf => by
    rw [pySplitStr]
    have hd := data_pyJoin_cons p q ps
    rw [hd, pySplit_append '-' p.data _ (hf p (by simp))]
    have ih : pySplitStr (pyJoin "-" (q :: ps)) '-' = q :: ps :=
      pySplitStr_pyJoin (q :: ps) (by simp)
        (fun s hs => hf s (List.mem_cons_of_mem p hs))
    rw [pySplitStr] at ih
    simp only [List.map_cons, ih]

theorem isPrefixOf_self_append (l t : List Char) : l.isPrefixOf (l ++ t) = true := by
  induction l with
  | nil => simp
  | cons c l' ih => simp [List.isPrefixOf, ih]

theorem isPrefixOf_false_head (a b : Char) (h : ¬ a = b) (l1 l2 : List Char) :
    (a :: l1).isPrefixOf (b :: l2) = false := by
  simp [List.isPrefixOf, h]

theorem isPrefixOf_false_second (a b c : Char) (h : ¬ b = c) (l1 l2 : List Char) :
    (a :: b :: l1).isPrefixOf (a :: c :: l2) = false := by
  simp [List.isPrefixOf, h]

theorem flatMap_congr_mem {α β : Type} {f g : α → List β} :
    ∀ (l : List α), (∀ a ∈ l, f a = g a) → l.flatMap f = l.flatMap g
  | [], _ => rfl
  | a :: l, h => by
    simp only [List.flatMap_cons, h a (List.mem_cons_self a l),
      flatMap_congr_mem l (fun b hb => h b (List.mem_cons_of_mem a hb))]

/-- Grouping a keyed list by a duplicate-free, covering list of keys
partitions it: concatenating the per-key filters permutes the original
list. -/
theorem flatMap_filter_key_perm :
    ∀ (keys : List String) (df : List (String × String)), keys.Nodup →
      (∀ e ∈ df, e.1 ∈ keys) →
      (keys.flatMap (fun i => df.filter (fun e => e.1 == i))).Perm df
  | [], df, _, hcov => by
    have : df = [] := by
      cases df with
      | nil => rfl
      | cons e l => exact absurd (hcov e (List.mem_cons_self e l)) (by simp)
    simp [this]
  | k :: ks, df, hnd, hcov => by
    have hknotin : k ∉ ks := (List.nodup_cons.mp hnd).1
    have hksnd : ks.Nodup := (List.nodup_cons.mp hnd).2
    have hsame : ∀ i ∈ ks, df.filter (fun e => e.1 == i) =
        (df.filter (fun e => !(e.1 == k))).filter (fun e => e.1 == i) := by
      intro i hi
      have hik : i ≠ k := fun h => hknotin (h ▸ hi)
      rw [List.filter_filter]
      refine (List.filter_congr ?_).symm
      intro e _
      by_cases he : e.1 = i
      · simp [he, hik]
      · simp [he]
    have hcov' : ∀ e ∈ df.filter (fun e => !(e.1 == k)), e.1 ∈ ks := by
      intro e he
      rcases List.mem_filter.mp he with ⟨hedf, hek⟩
      rcases List.mem_cons.mp (hcov e hedf) with hk | hks
      · simp [hk] at hek
      · exact hks
    have ih := flatMap_filter_key_perm ks (df.filter (fun e => !(e.1 == k)))
      hksnd hcov'
    have h1 : (k :: ks).flatMap (fun i => df.filter (fun e => e.1 == i)) =
        df.filter (fun e => e.1 == k) ++
          ks.flatMap (fun i => (df.filter (fun e => !(e.1 == k))).filter
            (fun e => e.1 == i)) := by
      rw [List.flatMap_cons, flatMap_congr_mem ks hsame]
    rw [h1]
    exact (List.Perm.append_left _ ih).trans (List.filter_append_perm _ df)

/-- Modelled from the spec: a "2xx-class" HTTP status, the success
notion the spec ascribes to the retry loop.  It is compared against the
code's actual notion `res_ok` (status < 400). -/
def is2xx (status : Nat) : Bool :=
  200 ≤ status && status < 300

/-! ### Claim theorems -/

/-- C1 (counterexample): on the claimed end-to-end input — project row
(id=P1, topic="HORIZON-CL1-01-02", contribution="1.234,56"), keyword
entry (P1, "Climate"), cluster filter {"CL1"}, remote fetch stubbed to
["Adaptation"] — the pipeline's output contains NO rows at all, not the
claimed single row: the filter tests exact membership of the full cluster
label "HORIZON-CL1" in the set {"CL1"}, which fails, so the row is
dropped. -/
theorem C1_pipeline_example_cex :
    pipeline [⟨"P1", .str "1.234,56", "HORIZON-CL1-01-02"⟩] (some ["CL1"])
      [("P1", "Climate")] (fun _ => some (.keywords ["Adaptation"])) =
      some [] := by
  rfl

/-- C1 (amended): with the cluster filter given as the full label
{"HORIZON-CL1"}, the pipeline outputs exactly one row: id=P1,
contribution left as the original string "1.234,56" (after comma→point
it reads "1.234.56", which does not parse as a float, so the normalizer
passes the string through), cluster "HORIZON-CL1", local keywords
["Climate"], remote keywords ["Adaptation"]. -/
theorem C1_pipeline_example_amended :
    pipeline [⟨"P1", .str "1.234,56", "HORIZON-CL1-01-02"⟩]
      (some ["HORIZON-CL1"]) [("P1", "Climate")]
      (fun _ => some (.keywords ["Adaptation"])) =
      some [⟨"P1", some (Sum.inr "1.234,56"), "HORIZON-CL1-01-02",
        "HORIZON-CL1", some ["Climate"], .keywords ["Adaptation"]⟩] := by
  rfl

/-- C2 (code bug evaluation): for the keywords content
"Health, HORIZON-test, AI, Health" the parsed keyword collection contains
"HORIZON-test", and its underlying set is NOT {"Health", "AI"} as the
claim states.  The code tests `kw.startswith("HORIZON")` on the raw
entry before stripping, so the entry " HORIZON-test" (with its leading
space from the comma-separated list) survives the filter and is then
stripped to "HORIZON-test". -/
theorem C2_keywords_filter_bug :
    "HORIZON-test" ∈ get_keywords_from_content "Health, HORIZON-test, AI, Health" ∧
    (get_keywords_from_content "Health, HORIZON-test, AI, Health").toFinset ≠
      ({"Health", "AI"} : Finset String) := by
  constructor
  · decide
  · decide

/-- C3 (counterexample): the Cluster Classifier is NOT total — on the
input "HORIZON", which matches the HORIZON rule but has only one
hyphen-delimited segment, `topic.split("-")[1]` raises `IndexError`
(modelled as `none`) instead of returning a string. -/
theorem C3_get_cluster_cex : get_cluster "HORIZON" = none := by
  rfl

/-- C3 (amended): the Cluster Classifier is pure and deterministic (it is
a mathematical function of its input), and it returns a string without
raising for every input whose matched rule has enough hyphen-delimited
segments: at least 2 for a HORIZON-prefixed identifier and at least 3 for
an ERC-prefixed one; the EURATOM rule and the fallback are total.  For a
matched HORIZON/ERC identifier with fewer segments it raises
`IndexError`. -/
theorem C3_get_cluster_total_amended (topic : String)
    (h1 : pyStartswith topic "HORIZON" = true → 2 ≤ (pySplitStr topic '-').length)
    (h2 : pyStartswith topic "ERC" = true → 3 ≤ (pySplitStr topic '-').length) :
    ∃ s, get_cluster topic = some s := by
  rw [get_cluster]
  by_cases hH : pyStartswith topic "HORIZON"
  · rw [if_pos hH]
    have hl : 1 < (pySplitStr topic '-').length := h1 hH
    rw [List.get?_eq_get hl]
    exact ⟨_, rfl⟩
  · rw [if_neg hH]
    by_cases hE : pyStartswith topic "ERC"
    · rw [if_pos hE]
      have hl : 2 < (pySplitStr topic '-').length := h2 hE
      rw [List.get?_eq_get hl]
      exact ⟨_, rfl⟩
    · rw [if_neg hE]
      by_cases hU : pyStartswith topic "EURATOM"
      · rw [if_pos hU]
        exact ⟨_, rfl⟩
      · rw [if_neg hU]
        exact ⟨_, rfl⟩

/-- C3 (witness): the amended totality theorem applied to the concrete
identifier "HORIZON-CL5-01". -/
theorem C3_get_cluster_total_amended_witness :
    ∃ s, get_cluster "HORIZON-CL5-01" = some s :=
  C3_get_cluster_total_amended "HORIZON-CL5-01" (by decide) (by decide)

/-- C10: the Remote Keyword Fetcher is not total over successful
responses — for a 2xx response whose HTML contains a `<meta>` element
named "keywords" that lacks a `content` attribute,
`keywords_soup["content"]` raises `KeyError` (modelled as `none`) instead
of returning a keyword list or a sentinel. -/
theorem C10_missing_content_raises :
    get_cordis_keywords (.response 200 ⟨some none⟩) .exn .exn = none := by
  rfl

/-- C6: the Value Normalizer contract — `convert_to_float` returns `none`
for a missing input, the number itself for an already numeric input, the
parsed float when the string (after replacing commas with points) parses
as a number, and otherwise the original string unchanged; in particular
for every string input it returns either a float or the original string,
never raising. -/
theorem C6_convert_to_float_contract :
    (convert_to_float .missing = none) ∧
    (∀ q : ℚ, convert_to_float (.num q) = some (Sum.inl q)) ∧
    (∀ s, (pyParseFloat (pyReplace s ',' '.')).isSome = true →
      convert_to_float (.str s) = (pyParseFloat (pyReplace s ',' '.')).map Sum.inl) ∧
    (∀ s, pyParseFloat (pyReplace s ',' '.') = none →
      convert_to_float (.str s) = some (Sum.inr s)) ∧
    (∀ s, (∃ q, convert_to_float (.str s) = some (Sum.inl q)) ∨
      convert_to_float (.str s) = some (Sum.inr s)) := by
  refine ⟨rfl, fun q => rfl, ?_, ?_, ?_⟩
  · intro s h
    rcases Option.isSome_iff_exists.mp h with ⟨q, hq⟩
    simp [convert_to_float, hq]
  · intro s h
    simp [convert_to_float, h]
  · intro s
    cases h : pyParseFloat (pyReplace s ',' '.') with
    | none => exact Or.inr (by simp [convert_to_float, h])
    | some q => exact Or.inl ⟨q, by simp [convert_to_float, h]⟩

/-- C6 (witness): the contract applied to the decimal-comma string "1,5"
(which parses, so a float is returned) and to the non-numeric string
"abc" (passed through unchanged). -/
theorem C6_convert_to_float_contract_witness :
    convert_to_float (.str "1,5") =
      (pyParseFloat (pyReplace "1,5" ',' '.')).map Sum.inl ∧
    convert_to_float (.str "abc") = some (Sum.inr "abc") :=
  ⟨C6_convert_to_float_contract.2.2.1 "1,5" (by decide),
   C6_convert_to_float_contract.2.2.2.1 "abc" (by decide)⟩

/-- C4: retry and sentinel semantics of the Remote Keyword Fetcher, with
"succeeds" read as the code's success test `res.ok`.  (1) If the first
two attempts fail and the third succeeds with keyword metadata present,
the parsed keyword list is returned.  (2) If every attempt fails, the
sentinel "ERROR" is returned after exactly 3 attempts.  (3) If the final
response of the loop is a success whose page has no keywords metadata
element, the sentinel "NOT FOUND" is returned.  (4) A transport-level
exception never propagates: the only way the function can raise (`none`)
is a successful response whose metadata element lacks its `content`
attribute, so every exception outcome is folded into the retry loop as a
failed attempt. -/
theorem C4_retry_sentinel_semantics :
    (∀ a0 a1 s p c, res_ok (toResponse a0).1 = false →
      res_ok (toResponse a1).1 = false → res_ok s = true →
      p.keywordsMeta = some (some c) →
      get_cordis_keywords a0 a1 (.response s p) =
        some (.keywords (get_keywords_from_content c))) ∧
    (∀ a0 a1 a2, res_ok (toResponse a0).1 = false →
      res_ok (toResponse a1).1 = false → res_ok (toResponse a2).1 = false →
      get_cordis_keywords a0 a1 a2 = some (.sentinel "ERROR") ∧
        (runRetry a0 a1 a2).2 = 3) ∧
    (∀ a0 a1 a2, res_ok (runRetry a0 a1 a2).1.1 = true →
      (runRetry a0 a1 a2).1.2.keywordsMeta = none →
      get_cordis_keywords a0 a1 a2 = some (.sentinel "NOT FOUND")) ∧
    (∀ a0 a1 a2, get_cordis_keywords a0 a1 a2 = none →
      res_ok (runRetry a0 a1 a2).1.1 = true ∧
      (runRetry a0 a1 a2).1.2.keywordsMeta = some none) := by
  refine ⟨?_, ?_, ?_, ?_⟩
  · intro a0 a1 s p c h0 h1 hs hm
    have hr : runRetry a0 a1 (.response s p) = ((s, p), 3) := by
      simp only [runRetry, h0, h1]
      rfl
    simp [get_cordis_keywords, hr, hs, hm]
  · intro a0 a1 a2 h0 h1 h2
    refine ⟨?_, ?_⟩ <;> simp [get_cordis_keywords, runRetry, h0, h1, h2]
  · intro a0 a1 a2 hok hm
    simp [get_cordis_keywords, hok, hm]
  · intro a0 a1 a2 h
    rw [get_cordis_keywords] at h
    cases hok : res_ok (runRetry a0 a1 a2).1.1 with
    | false => simp [hok] at h
    | true =>
      refine ⟨rfl, ?_⟩
      simp only [hok, Bool.not_true] at h
      cases hm : (runRetry a0 a1 a2).1.2.keywordsMeta with
      | none => rw [hm] at h; simp at h
      | some o =>
        cases o with
        | none => rfl
        | some c => rw [hm] at h; simp at h

/-- C4 (witness): the semantics applied to concrete attempt sequences:
two failures (an exception, then HTTP 500) followed by HTTP 200 with
keyword content "AI"; three exceptions; an immediate HTTP 204 success
without the metadata element; and an immediate HTTP 200 success whose
metadata element lacks its content attribute. -/
theorem C4_retry_sentinel_semantics_witness :
    get_cordis_keywords .exn (.response 500 ⟨none⟩)
        (.response 200 ⟨some (some "AI")⟩) =
      some (.keywords (get_keywords_from_content "AI")) ∧
    (get_cordis_keywords .exn .exn .exn = some (.sentinel "ERROR") ∧
      (runRetry .exn .exn .exn).2 = 3) ∧
    get_cordis_keywords (.response 204 ⟨none⟩) .exn .exn =
      some (.sentinel "NOT FOUND") ∧
    (res_ok (runRetry (.response 200 ⟨some none⟩) .exn .exn).1.1 = true ∧
      (runRetry (.response 200 ⟨some none⟩) .exn .exn).1.2.keywordsMeta =
        some none) :=
  ⟨C4_retry_sentinel_semantics.1 .exn (.response 500 ⟨none⟩) 200
      ⟨some (some "AI")⟩ "AI" (by decide) (by decide) (by decide) rfl,
   C4_retry_sentinel_semantics.2.1 .exn .exn .exn
      (by decide) (by decide) (by decide),
   C4_retry_sentinel_semantics.2.2.1 (.response 204 ⟨none⟩) .exn .exn
      (by decide) (by decide),
   C4_retry_sentinel_semantics.2.2.2 (.response 200 ⟨some none⟩) .exn .exn
      (by rfl)⟩

/-- C5 (counterexample): the claim says the loop stops early exactly on a
2xx-class status and that any outcome sequence with no 2xx status
exhausts all 3 attempts.  The sequence consisting of three HTTP 301
responses contains no 2xx status (`is2xx 301 = false`), yet the loop
stops after a single attempt, because `requests.Response.ok` is true for
every status below 400, including 3xx. -/
theorem C5_retry_2xx_cex :
    is2xx 301 = false ∧
    (runRetry (.response 301 ⟨none⟩) (.response 301 ⟨none⟩)
      (.response 301 ⟨none⟩)).2 = 1 := by
  decide

/-- C5 (amended): the retry loop stops early exactly when an attempt
returns a non-error HTTP status in requests' sense (`status < 400`,
which includes 1xx and 3xx); every status ≥ 400 as well as every
transport failure counts as a failed attempt that is retried; for every
sequence of attempt outcomes containing no status < 400, all 3 attempts
are exhausted. -/
theorem C5_retry_stop_amended (a0 a1 a2 : Attempt) :
    ((runRetry a0 a1 a2).2 = 1 ↔ res_ok (toResponse a0).1 = true) ∧
    ((runRetry a0 a1 a2).2 = 2 ↔ (res_ok (toResponse a0).1 = false ∧
      res_ok (toResponse a1).1 = true)) ∧
    ((runRetry a0 a1 a2).2 = 3 ↔ (res_ok (toResponse a0).1 = false ∧
      res_ok (toResponse a1).1 = false)) ∧
    ((runRetry a0 a1 a2).2 < 3 ↔ (res_ok (toResponse a0).1 = true ∨
      res_ok (toResponse a1).1 = true)) ∧
    (res_ok (toResponse a0).1 = true → (runRetry a0 a1 a2).1 = toResponse a0) := by
  cases h0 : res_ok (toResponse a0).1 <;> cases h1 : res_ok (toResponse a1).1 <;>
    simp [runRetry, h0, h1]

/-- C5 (witness): the amended characterization applied to concrete
sequences: a 301 response stops the loop at the first attempt, while an
exception followed by two HTTP 500 responses exhausts all 3 attempts. -/
theorem C5_retry_stop_amended_witness :
    (runRetry (.response 301 ⟨none⟩) .exn .exn).2 = 1 ∧
    (runRetry .exn (.response 500 ⟨none⟩) (.response 500 ⟨none⟩)).2 = 3 :=
  ⟨(C5_retry_stop_amended (.response 301 ⟨none⟩) .exn .exn).1.mpr (by decide),
   (C5_retry_stop_amended .exn (.response 500 ⟨none⟩)
      (.response 500 ⟨none⟩)).2.2.1.mpr (by decide)⟩

/-- C7: for every topic identifier built from hyphen-free segments
"EURATOM", s1, s2, s3, …, sn (at least 4 segments, the first being
"EURATOM"), the Cluster Classifier returns "EURATOM-" followed by the
segments strictly after the second one and up to the second-to-last one
inclusive (Python slice `[2:-1]`), joined by hyphens: here
`(s2 :: s3 :: rest).dropLast`. -/
theorem C7_euratom_cluster (s1 s2 s3 : String) (rest : List String)
    (hf : ∀ s ∈ ("EURATOM" :: s1 :: s2 :: s3 :: rest), '-' ∉ s.data) :
    get_cluster (pyJoin "-" ("EURATOM" :: s1 :: s2 :: s3 :: rest)) =
      some ("EURATOM-" ++ pyJoin "-" ((s2 :: s3 :: rest).dropLast)) := by
  have hsplit : pySplitStr (pyJoin "-" ("EURATOM" :: s1 :: s2 :: s3 :: rest)) '-' =
      "EURATOM" :: s1 :: s2 :: s3 :: rest :=
    pySplitStr_pyJoin _ (by simp) hf
  have hdata := data_pyJoin_cons "EURATOM" s1 (s2 :: s3 :: rest)
  have hdE : "EURATOM".data = 'E' :: 'U' :: 'R' :: 'A' :: 'T' :: 'O' :: 'M' :: [] := rfl
  have hH : pyStartswith (pyJoin "-" ("EURATOM" :: s1 :: s2 :: s3 :: rest))
      "HORIZON" = false := by
    rw [pyStartswith, hdata, hdE]
    exact isPrefixOf_false_head 'H' 'E' (by decide) _ _
  have hE : pyStartswith (pyJoin "-" ("EURATOM" :: s1 :: s2 :: s3 :: rest))
      "ERC" = false := by
    rw [pyStartswith, hdata, hdE]
    exact isPrefixOf_false_second 'E' 'R' 'U' (by decide) _ _
  have hU : pyStartswith (pyJoin "-" ("EURATOM" :: s1 :: s2 :: s3 :: rest))
      "EURATOM" = true := by
    rw [pyStartswith, hdata]
    exact isPrefixOf_self_append _ _
  simp [get_cluster, hH, hE, hU, hsplit]

/-- C7 (witness): the EURATOM rule applied to the concrete identifier
"EURATOM-A-B-C" (4 segments), which is classified as "EURATOM-B". -/
theorem C7_euratom_cluster_witness :
    get_cluster (pyJoin "-" ["EURATOM", "A", "B", "C"]) =
      some ("EURATOM-" ++ pyJoin "-" (["B", "C"].dropLast)) :=
  C7_euratom_cluster "A" "B" "C" [] (by decide)

/-- C8: for every topic identifier built from hyphen-free segments
"HORIZON", x, … (at least 2 segments, the first being "HORIZON"), the
Cluster Classifier returns "HORIZON-" ++ x; and for every identifier
built from hyphen-free segments "ERC", x, y, … (at least 3 segments), it
returns "ERC-" ++ y. -/
theorem C8_horizon_erc_cluster :
    (∀ (x : String) (rest : List String),
      (∀ s ∈ ("HORIZON" :: x :: rest), '-' ∉ s.data) →
      get_cluster (pyJoin "-" ("HORIZON" :: x :: rest)) =
        some ("HORIZON-" ++ x)) ∧
    (∀ (x y : String) (rest : List String),
      (∀ s ∈ ("ERC" :: x :: y :: rest), '-' ∉ s.data) →
      get_cluster (pyJoin "-" ("ERC" :: x :: y :: rest)) =
        some ("ERC-" ++ y)) := by
  constructor
  · intro x rest hf
    have hsplit : pySplitStr (pyJoin "-" ("HORIZON" :: x :: rest)) '-' =
        "HORIZON" :: x :: rest := pySplitStr_pyJoin _ (by simp) hf
    have hdata := data_pyJoin_cons "HORIZON" x rest
    have hH : pyStartswith (pyJoin "-" ("HORIZON" :: x :: rest)) "HORIZON" = true := by
      rw [pyStartswith, hdata]
      exact isPrefixOf_self_append _ _
    simp [get_cluster, hH, hsplit]
  · intro x y rest hf
    have hsplit : pySplitStr (pyJoin "-" ("ERC" :: x :: y :: rest)) '-' =
        "ERC" :: x :: y :: rest := pySplitStr_pyJoin _ (by simp) hf
    have hdata := data_pyJoin_cons "ERC" x (y :: rest)
    have hdE : "ERC".data = 'E' :: 'R' :: 'C' :: [] := rfl
    have hH : pyStartswith (pyJoin "-" ("ERC" :: x :: y :: rest)) "HORIZON" = false := by
      rw [pyStartswith, hdata, hdE]
      exact isPrefixOf_false_head 'H' 'E' (by decide) _ _
    have hE : pyStartswith (pyJoin "-" ("ERC" :: x :: y :: rest)) "ERC" = true := by
      rw [pyStartswith, hdata]
      exact isPrefixOf_self_append _ _
    simp [get_cluster, hH, hE, hsplit]

/-- C8 (witness): the HORIZON rule applied to "HORIZON-CL5-01"
(classified "HORIZON-CL5") and the ERC rule applied to "ERC-2021-STG"
(classified "ERC-STG"). -/
theorem C8_horizon_erc_cluster_witness :
    get_cluster (pyJoin "-" ["HORIZON", "CL5", "01"]) =
      some ("HORIZON-" ++ "CL5") ∧
    get_cluster (pyJoin "-" ["ERC", "2021", "STG"]) =
      some ("ERC-" ++ "STG") :=
  ⟨C8_horizon_erc_cluster.1 "CL5" ["01"] (by decide),
   C8_horizon_erc_cluster.2 "2021" "STG" [] (by decide)⟩

/-- C9: the Local Keyword Aggregator returns the empty list for a project
identifier with zero matching entries; and the concatenation of the
lists returned for all distinct identifiers occurring in the keyword
table is a permutation of (i.e. equal as a multiset to) the full list of
keyword entries — no entry is dropped and none is duplicated across
groups. -/
theorem C9_aggregator (df : List (String × String)) :
    (∀ pid, (∀ e ∈ df, e.1 ≠ pid) → get_euroscivoc_keywords pid df = []) ∧
    (((df.map Prod.fst).dedup.flatMap
      (fun i => get_euroscivoc_keywords i df)).Perm (df.map Prod.snd)) := by
  constructor
  · intro pid h
    rw [get_euroscivoc_keywords]
    have : df.filter (fun e => e.1 == pid) = [] := by
      rw [List.filter_eq_nil_iff]
      intro e he
      simpa using h e he
    rw [this]
    rfl
  · have hkey : ((df.map Prod.fst).dedup.flatMap
        (fun i => df.filter (fun e => e.1 == i))).Perm df :=
      flatMap_filter_key_perm _ df (List.nodup_dedup _)
        (fun e he => List.mem_dedup.mpr (List.mem_map_of_mem Prod.fst he))
    have hmap := hkey.map Prod.snd
    rw [List.map_flatMap] at hmap
    exact hmap

/-- C9 (witness): a project identifier absent from the keyword table
yields the empty list, on a concrete two-entry table. -/
theorem C9_aggregator_witness :
    get_euroscivoc_keywords "P9" [("P1", "Climate"), ("P2", "AI")] = [] :=
  (C9_aggregator [("P1", "Climate"), ("P2", "AI")]).1 "P9" (by decide)
